import Mathlib

/-
Verification of the pgdb table/metadata management layer.

The Python source (Python 2) is embedded shallowly:
  - machine state of a table handle becomes the structure `Pgdb.Table`;
  - fallible methods become functions returning `Except Pgdb.PyErr`;
  - every statement sent to the database (a DDL statement or a catalog
    query) is recorded in a trace of `Pgdb.Eff` values, so that "touches
    the database" and "issues exactly one DDL statement" are checkable;
  - Python exceptions become constructors of `Pgdb.PyErr`.
-/

set_option autoImplicit false

deriving instance DecidableEq for Except

namespace Pgdb

/-- Python exceptions that the embedded code can raise.  `valueError` is the
ValueError raised by name validation; `typeError` is the TypeError raised by
applying `len` to a bool; `attributeError` is an AttributeError from reading
an attribute the object does not possess; `keyError` is a failed dictionary
lookup; `datasetException` is `pgdb.util.DatasetException` (the spec calls it
TableDroppedError); `noSuchTableError` is the SQLAlchemy reflection error for
autoloading a table that does not exist. -/
inductive PyErr where
  | valueError
  | typeError
  | attributeError
  | keyError
  | datasetException
  | noSuchTableError
deriving DecidableEq, Repr

/-- One round-trip to the database: a catalog query or a DDL statement. -/
inductive Eff where
  | qSchemata
  | qTablesInSchema (s : String)
  | reflect (schema : Option String) (tname : Option String)
  | alterAddPrimaryKey (schema : Option String) (tname : Option String) (column : String)
  | dropTable (schema : Option String) (tname : Option String)
  | addColumn (tname : Option String) (column : String)
  | delColumn (tname : Option String) (column : String)
deriving DecidableEq, Repr

/-- A created SQLAlchemy `Index` object, as far as the handle observes it:
its name and the ordered column list it covers. -/
structure IndexDescr where
  iname : String
  icolumns : List String
deriving DecidableEq, Repr

/-- The SQLAlchemy `Table` metadata object held in `self.table`: the table
name and schema it was built with, the ordered column names
(`table.columns.keys()`), the primary-key column names, and the reflected
indexes. -/
structure SqlaTable where
  sname : Option String
  sschema : Option String
  scolumns : List String
  sprimaryKey : List String
  sindexes : List IndexDescr
deriving DecidableEq, Repr

/-- The state of a `pgdb.table.Table` handle: the attributes set by
`Table.__init__` (`self.schema`, `self.name`, `self.table`, `self.indexes`,
`self._is_dropped`).  The connection object `self.db` carries no state the
claims observe, so it is not a field; statements sent through it are
recorded in the `Eff` trace instead. -/
structure Table where
  schema : Option String
  name : Option String
  table : SqlaTable
  indexes : List (String × Option IndexDescr)
  _is_dropped : Bool
deriving DecidableEq, Repr

/-- Modelled from the spec: `pgdb/util.py` is not under `src/`.  Section 3 of
the spec describes `normalize_column_name` as a case/quote-insensitive
normalization used only for existence comparisons.  Modelled as dropping
double-quote characters and lowercasing. -/
def normalize_column_name (name : String) : String :=
  String.mk ((name.data.filter (fun c => c.toNat != 34)).map Char.toLower)

/-- `Table.columns` property: `list(self.table.columns.keys())`. -/
def Table.columns (t : Table) : List String :=
  t.table.scolumns

/-- `Table._normalized_columns` property:
`map(normalize_column_name, self.columns)`. -/
def Table._normalized_columns (t : Table) : List String :=
  t.columns.map normalize_column_name

/-- `Table.primary_key` property: `[c.name for c in self.table.primary_key]`. -/
def Table.primary_key (t : Table) : List String :=
  t.table.sprimaryKey

/-- `Table.op` property: `MigrationContext.configure(self.engine)`.
`Table.__init__` stores the connection in `self.db` and never sets
`self.engine`, so evaluating this property raises AttributeError before any
migration context is built. -/
def Table.op (_t : Table) : Except PyErr Unit :=
  Except.error PyErr.attributeError

/-- `Table._check_dropped`: raises DatasetException when `self._is_dropped`. -/
def Table._check_dropped (t : Table) : Except PyErr Unit :=
  if t._is_dropped then Except.error PyErr.datasetException else Except.ok ()

/-- `Table._update_table(table_name)`: builds a fresh `MetaData(schema)` and
returns `SQLATable(table_name, metadata, schema=schema)` WITHOUT
`autoload=True`, so the resulting metadata object carries no columns, no
primary key and no indexes. -/
def Table._update_table (t : Table) (table_name : Option String) : SqlaTable :=
  { sname := table_name, sschema := t.schema, scolumns := [],
    sprimaryKey := [], sindexes := [] }

/-- `Table.add_primary_key(column)`: when `self.primary_key` is empty, sends
one `ALTER TABLE schema.name ADD PRIMARY KEY (column)` through
`self.db.execute`; otherwise does nothing.  There is no `_check_dropped`
call and the handle state is left unchanged in both cases. -/
def Table.add_primary_key (t : Table) (column : String) :
    Except PyErr Table × List Eff :=
  if t.primary_key = [] then
    (Except.ok t, [Eff.alterAddPrimaryKey t.schema t.name column])
  else
    (Except.ok t, [])

/-- `Table.drop()`: sets `self._is_dropped = True`, then issues
`self.table.drop(self.db.engine)` (a DROP TABLE statement for the table the
cached metadata names).  There is no `_check_dropped` call first. -/
def Table.drop (t : Table) : Except PyErr Table × List Eff :=
  ({ t with _is_dropped := true } |> Except.ok,
   [Eff.dropTable t.table.sschema t.table.sname])

/-- `Table.create_column(name, type)`: checks the dropped flag, then, when
the normalized name is not among the normalized existing columns, evaluates
`self.op` — which raises AttributeError (see `Table.op`) before the
`add_column` operation or the `_update_table` refresh can run.  When the
normalized name is already present the call is a no-op. -/
def Table.create_column (t : Table) (name : String) (_ty : Unit) :
    Except PyErr Table × List Eff :=
  match t._check_dropped with
  | Except.error e => (Except.error e, [])
  | Except.ok _ =>
    if normalize_column_name name ∈ t._normalized_columns then
      (Except.ok t, [])
    else
      match t.op with
      | Except.error e => (Except.error e, [])
      | Except.ok _ =>
        -- self.op.add_column(self.table.name, Column(name, type), schema)
        -- then self.table = self._update_table(self.table.name)
        (Except.ok { t with table := t._update_table t.table.sname },
         [Eff.addColumn t.table.sname name])

/-- `Table.drop_column(name)`: checks the dropped flag, then, when `name` is
an exact key of `self.table.columns`, evaluates `self.op` — which raises
AttributeError before the `drop_column` operation or the refresh can run.
When the column is absent the call is a no-op. -/
def Table.drop_column (t : Table) (name : String) :
    Except PyErr Table × List Eff :=
  match t._check_dropped with
  | Except.error e => (Except.error e, [])
  | Except.ok _ =>
    if name ∈ t.table.scolumns then
      match t.op with
      | Except.error e => (Except.error e, [])
      | Except.ok _ =>
        (Except.ok { t with table := t._update_table t.table.sname },
         [Eff.delColumn t.table.sname name])
    else
      (Except.ok t, [])

/-- The list comprehension `[self.table.c[c] for c in columns]` inside
`create_index`: resolves each requested column in the cached metadata,
raising KeyError on a miss. -/
def Table.resolveCols (t : Table) (cols : List String) :
    Except PyErr (List String) :=
  cols.mapM (fun c =>
    if c ∈ t.table.scolumns then Except.ok c else Except.error PyErr.keyError)

/-- `Table.create_index(columns, name=None)`: checks the dropped flag first.
Then `if not name and len(columns > 1)`: under Python 2, `columns > 1`
compares a list with an int — which yields the bool `True` — and
`len(True)` raises TypeError, so every call whose `name` is falsy (None or
the empty string) raises TypeError and the whole name-derivation block
(including the `_idx` suffix and the sha1-based `ix_` names) is
unreachable.  With an explicit nonempty name: a cache hit on
`self.indexes` returns the cached descriptor with no database traffic; on a
miss, the `try` block resolves the columns and then evaluates
`self.database.engine` — the handle stores its connection as `self.db` and
has no `database` attribute, so AttributeError is raised before
`idx.create` can reach the engine; the bare `except` swallows any failure,
setting `idx = None`, and this sentinel is cached under the name and
returned. -/
def Table.create_index (t : Table) (columns : List String)
    (name : Option String) :
    Except PyErr (Option IndexDescr × Table) × List Eff :=
  match t._check_dropped with
  | Except.error e => (Except.error e, [])
  | Except.ok _ =>
    match name with
    | none => (Except.error PyErr.typeError, [])
    | some n =>
      if n = "" then
        (Except.error PyErr.typeError, [])
      else
        match t.indexes.lookup n with
        | some idx => (Except.ok (idx, t), [])
        | none =>
          let attempt : Except PyErr IndexDescr :=
            match t.resolveCols columns with
            | Except.error e => Except.error e
            | Except.ok _cs => Except.error PyErr.attributeError
          let idx : Option IndexDescr :=
            match attempt with
            | Except.ok i => some i
            | Except.error _ => none
          (Except.ok (idx, { t with indexes := t.indexes ++ [(n, idx)] }),
           [])

/-- One table as it exists server-side: its schema, name, and structure.
This is the state the catalog queries and SQLAlchemy reflection read. -/
structure CatTable where
  cschema : String
  cname : String
  ccolumns : List String
  cprimaryKey : List String
  cindexes : List IndexDescr
deriving DecidableEq, Repr

/-- The database server state observed by catalog queries: the rows of
`information_schema.schemata` and the existing tables. -/
structure Catalog where
  schemaNames : List String
  catTables : List CatTable
deriving DecidableEq, Repr

/-- SQLAlchemy reflection (`autoload=True`): look the named table up in the
server catalog.  A `None` table name matches nothing. -/
def Catalog.autoload (cat : Catalog) (schema : Option String)
    (tname : Option String) : Option SqlaTable :=
  match tname with
  | none => none
  | some n =>
    match cat.catTables.find?
        (fun r => some r.cschema == schema && r.cname == n) with
    | some r =>
      some { sname := some r.cname, sschema := schema, scolumns := r.ccolumns,
             sprimaryKey := r.cprimaryKey, sindexes := r.cindexes }
    | none => none

/-- `Table.__init__(db, schema, table)` with `columns=None`:
`SQLATable(table, metadata, schema=schema, autoload=True)` reflects the
table from the database (one round-trip); SQLAlchemy raises
NoSuchTableError when no table by that name exists, so a handle is only
produced for an existing table.  `self.indexes` is initialised from the
reflected indexes and `self._is_dropped` from `False`. -/
def Table.init (cat : Catalog) (schema : Option String)
    (tname : Option String) : Except PyErr Table × List Eff :=
  match cat.autoload schema tname with
  | some sq =>
    (Except.ok { schema := schema, name := tname, table := sq,
                 indexes := sq.sindexes.map (fun i => (i.iname, some i)),
                 _is_dropped := false },
     [Eff.reflect schema tname])
  | none => (Except.error PyErr.noSuchTableError, [Eff.reflect schema tname])

/-- The state of a `pgdb.database.Database` handle that the claims observe:
the default schema fixed at construction.  The live connection itself is
represented by passing the server `Catalog` to each operation. -/
structure Database where
  schema : Option String
deriving DecidableEq, Repr

/-- Python `str.split` on a single dot character: splits at EVERY dot, not
just the first one. -/
def splitDot : List Char → List (List Char)
  | [] => [[]]
  | c :: cs =>
    let r := splitDot cs
    if c = '.' then [] :: r
    else
      match r with
      | p :: ps => (c :: p) :: ps
      | [] => [[c]]

/-- Python `str.strip()`: remove leading and trailing whitespace. -/
def pyStrip (s : List Char) : List Char :=
  ((s.dropWhile Char.isWhitespace).reverse.dropWhile Char.isWhitespace).reverse

/-- `Database.parse_table_name(table)`: when the string contains a dot,
`schema, table = table.split('.')` unpacks the split — which raises
ValueError unless the split has exactly two parts (i.e. the string has
exactly one dot); otherwise the schema is None and the string is returned
as the table part. -/
def Database.parse_table_name (_db : Database) (table : String) :
    Except PyErr (Option String × String) :=
  if '.' ∈ table.data then
    match splitDot table.data with
    | [s, t] => Except.ok (some (String.mk s), String.mk t)
    | _ => Except.error PyErr.valueError
  else
    Except.ok (none, table)

/-- `Database._valid_table_name(table)`: raises ValueError when the input is
None or strips to the empty string; otherwise returns the stripped name. -/
def Database._valid_table_name (_db : Database) (table : Option String) :
    Except PyErr String :=
  match table with
  | none => Except.error PyErr.valueError
  | some t =>
    if (pyStrip t.data).length = 0 then Except.error PyErr.valueError
    else Except.ok (String.mk (pyStrip t.data))

/-- `Database.schemas` property: queries `information_schema.schemata` (one
round-trip) and keeps the names whose first three characters are not
`pg_`. -/
def Database.schemas (_db : Database) (cat : Catalog) :
    List String × List Eff :=
  (cat.schemaNames.filter (fun s => !(s.take 3 == "pg_")), [Eff.qSchemata])

/-- `Database.tables_in_schema(schema)`: one catalog query listing the table
names in the given schema. -/
def Database.tables_in_schema (_db : Database) (cat : Catalog)
    (schema : String) : List String × List Eff :=
  ((cat.catTables.filter (fun r => r.cschema == schema)).map
     (fun r => r.cname),
   [Eff.qTablesInSchema schema])

/-- `Database.tables` property: with a configured default schema, the
unqualified table names in that schema; without one, the
`schema + "." + table` qualified names across all non-system schemas. -/
def Database.tables (db : Database) (cat : Catalog) :
    List String × List Eff :=
  match db.schema with
  | some s => db.tables_in_schema cat s
  | none =>
    let ss := (db.schemas cat).1
    (ss.flatMap (fun s =>
       ((db.tables_in_schema cat s).1.map (fun t => s ++ "." ++ t))),
     (db.schemas cat).2 ++ ss.map (fun s => Eff.qTablesInSchema s))

/-- `Database.load_table(table)`: validates the name, parses the optional
schema qualifier, consults the catalog, and autoloads a handle when the
table is listed; returns None (no handle) when it is not. -/
def Database.load_table (db : Database) (cat : Catalog)
    (table : Option String) : Except PyErr (Option Table) × List Eff :=
  match db._valid_table_name table with
  | Except.error e => (Except.error e, [])
  | Except.ok tv =>
    match db.parse_table_name tv with
    | Except.error e => (Except.error e, [])
    | Except.ok (sch?, tname) =>
      match sch? with
      | none =>
        let schema := db.schema
        let (tbls, e1) := db.tables cat
        if tname ∈ tbls then
          match Table.init cat schema (some tname) with
          | (Except.ok t, e2) => (Except.ok (some t), e1 ++ e2)
          | (Except.error e, e2) => (Except.error e, e1 ++ e2)
        else
          (Except.ok none, e1)
      | some sch =>
        let (tbls, e1) := db.tables_in_schema cat sch
        if tname ∈ tbls then
          match Table.init cat (some sch) (some tname) with
          | (Except.ok t, e2) => (Except.ok (some t), e1 ++ e2)
          | (Except.error e, e2) => (Except.error e, e1 ++ e2)
        else
          (Except.ok none, e1)

/-- `Database.__getitem__(table)`: when the name is listed in `self.tables`,
delegates to `load_table`; otherwise evaluates `Table(self, "public",
None)` — whose construction autoloads a table named None and therefore
raises NoSuchTableError instead of producing the "empty table object" the
source comment promises. -/
def Database.getitem (db : Database) (cat : Catalog) (table : String) :
    Except PyErr (Option Table) × List Eff :=
  let (tbls, e1) := db.tables cat
  if table ∈ tbls then
    match db.load_table cat (some table) with
    | (r, e2) => (r, e1 ++ e2)
  else
    match Table.init cat (some "public") none with
    | (Except.ok t, e2) => (Except.ok (some t), e1 ++ e2)
    | (Except.error e, e2) => (Except.error e, e1 ++ e2)

/-! Concrete fixtures used by counterexamples and witnesses: a table
`public.things` with columns `id`, `name`, no primary key and no indexes. -/

/-- Reflected metadata of the fixture table `public.things`. -/
def exSqla : SqlaTable :=
  { sname := some "things", sschema := some "public",
    scolumns := ["id", "name"], sprimaryKey := [], sindexes := [] }

/-- A live handle on the fixture table. -/
def exTable : Table :=
  { schema := some "public", name := some "things", table := exSqla,
    indexes := [], _is_dropped := false }

/-- The fixture handle after `drop()` has set its flag. -/
def exDropped : Table :=
  { exTable with _is_dropped := true }

/-- A server catalog holding exactly the fixture table. -/
def exCat : Catalog :=
  { schemaNames := ["public", "pg_catalog"],
    catTables := [{ cschema := "public", cname := "things",
                    ccolumns := ["id", "name"], cprimaryKey := [],
                    cindexes := [] }] }

/-- A database handle configured with default schema `public`. -/
def exDb : Database :=
  { schema := some "public" }

/-! Shared lemmas. -/

/-- On a cache miss with a nonempty explicit name and a live handle,
`create_index` swallows the creation failure, caches the `None` sentinel
under the name, returns it, and sends nothing to the database. -/
theorem create_index_fresh (t : Table) (cols : List String) (n : String)
    (hd : t._is_dropped = false) (hn : ¬ n = "")
    (hl : t.indexes.lookup n = none) :
    t.create_index cols (some n) =
      (Except.ok (none, { t with indexes := t.indexes ++ [(n, none)] }), []) := by
  cases hres : t.resolveCols cols <;>
    simp [Table.create_index, Table._check_dropped, hd, hn, hl, hres]

/-- Appending a binding for a key absent from an association list makes the
lookup of that key find the new binding. -/
theorem lookup_append_fresh (l : List (String × Option IndexDescr))
    (n : String) (v : Option IndexDescr) (h : l.lookup n = none) :
    (l ++ [(n, v)]).lookup n = some v := by
  induction l with
  | nil => simp [List.lookup]
  | cons p l ih =>
    obtain ⟨a, b⟩ := p
    by_cases hna : (n == a) = true
    · simp [List.lookup, hna] at h
    · simp only [Bool.not_eq_true] at hna
      simp only [List.lookup, hna] at h
      simp only [List.cons_append, List.lookup, hna]
      exact ih h

/-- No dot in the character list: Python `split` yields the list itself as
the only part. -/
theorem splitDot_no_dot (l : List Char) (h : '.' ∉ l) : splitDot l = [l] := by
  induction l with
  | nil => rfl
  | cons c cs ih =>
    have hc : ¬ c = '.' := fun hx => h (hx ▸ List.mem_cons_self c cs)
    have hcs : '.' ∉ cs := fun hx => h (List.mem_cons_of_mem c hx)
    simp [splitDot, hc, ih hcs]

/-- Splitting `s ++ "." ++ t` where `s` has no dot peels off `s` as the
first part. -/
theorem splitDot_append (s t : List Char) (hs : '.' ∉ s) :
    splitDot (s ++ '.' :: t) = s :: splitDot t := by
  induction s with
  | nil => simp [splitDot]
  | cons c cs ih =>
    have hc : ¬ c = '.' := fun hx => hs (hx ▸ List.mem_cons_self c cs)
    have hcs : '.' ∉ cs := fun hx => hs (List.mem_cons_of_mem c hx)
    simp [splitDot, hc, ih hcs]

/-- Stripping a list of whitespace characters leaves nothing. -/
theorem pyStrip_all_ws (l : List Char) (h : ∀ c ∈ l, c.isWhitespace) :
    pyStrip l = [] := by
  have h1 : l.dropWhile Char.isWhitespace = [] :=
    List.dropWhile_eq_nil_iff.mpr h
  simp [pyStrip, h1]

/-! Claim theorems. -/

/-- C1 counterexample: on the already-dropped fixture handle, neither
`add_primary_key` nor a second `drop()` raises the dropped error, and both
send a statement to the database — refuting the claim that every listed
operation after `drop()` raises TableDroppedError without touching the
database. -/
theorem C1_counterexample :
    (Table.add_primary_key exDropped "id").1 ≠ Except.error PyErr.datasetException
  ∧ (Table.add_primary_key exDropped "id").2 ≠ []
  ∧ (Table.drop exDropped).1 ≠ Except.error PyErr.datasetException
  ∧ (Table.drop exDropped).2 ≠ [] := by
  decide

/-- C1 (amended): the dropped flag only moves from false to true (set by
`drop`, preserved by every operation), and after `drop()` the three
operations that call `_check_dropped` — `create_column`, `drop_column` and
`create_index` — fail with the dropped error and send nothing to the
database; `add_primary_key` and `drop` perform no dropped-check. -/
theorem C1_dropped_lifecycle :
    (∀ (t : Table) (n : String) (ty : Unit), t._is_dropped = true →
       t.create_column n ty = (Except.error PyErr.datasetException, []))
  ∧ (∀ (t : Table) (n : String), t._is_dropped = true →
       t.drop_column n = (Except.error PyErr.datasetException, []))
  ∧ (∀ (t : Table) (cols : List String) (nm : Option String),
       t._is_dropped = true →
       t.create_index cols nm = (Except.error PyErr.datasetException, []))
  ∧ (∀ (t t2 : Table), (t.drop).1 = Except.ok t2 → t2._is_dropped = true)
  ∧ (∀ (t : Table) (n : String) (ty : Unit) (t2 : Table),
       (t.create_column n ty).1 = Except.ok t2 →
       t2._is_dropped = t._is_dropped)
  ∧ (∀ (t : Table) (n : String) (t2 : Table),
       (t.drop_column n).1 = Except.ok t2 → t2._is_dropped = t._is_dropped)
  ∧ (∀ (t : Table) (cols : List String) (nm : Option String)
       (r : Option IndexDescr) (t2 : Table),
       (t.create_index cols nm).1 = Except.ok (r, t2) →
       t2._is_dropped = t._is_dropped)
  ∧ (∀ (t : Table) (c : String) (t2 : Table),
       (t.add_primary_key c).1 = Except.ok t2 → t2 = t) := by
  refine ⟨?_, ?_, ?_, ?_, ?_, ?_, ?_, ?_⟩
  · intro t n ty h
    simp [Table.create_column, Table._check_dropped, h]
  · intro t n h
    simp [Table.drop_column, Table._check_dropped, h]
  · intro t cols nm h
    simp [Table.create_index, Table._check_dropped, h]
  · intro t t2 h
    simp only [Table.drop] at h
    cases h
    rfl
  · intro t n ty t2 h
    by_cases hd : t._is_dropped
    · simp [Table.create_column, Table._check_dropped, hd] at h
    · by_cases hm : normalize_column_name n ∈ t._normalized_columns
      · simp [Table.create_column, Table._check_dropped, hd, hm] at h
        rw [← h]
      · simp [Table.create_column, Table._check_dropped, Table.op, hd, hm] at h
  · intro t n t2 h
    by_cases hd : t._is_dropped
    · simp [Table.drop_column, Table._check_dropped, hd] at h
    · by_cases hm : n ∈ t.table.scolumns
      · simp [Table.drop_column, Table._check_dropped, Table.op, hd, hm] at h
      · simp [Table.drop_column, Table._check_dropped, hd, hm] at h
        rw [← h]
  · intro t cols nm r t2 h
    by_cases hd : t._is_dropped
    · simp [Table.create_index, Table._check_dropped, hd] at h
    · cases nm with
      | none => simp [Table.create_index, Table._check_dropped, hd] at h
      | some n =>
        by_cases hn : n = ""
        · simp [Table.create_index, Table._check_dropped, hd, hn] at h
        · cases hl : t.indexes.lookup n with
          | some idx =>
            simp [Table.create_index, Table._check_dropped, hd, hn, hl] at h
            rw [← h.2]
          | none =>
            simp only [Bool.not_eq_true] at hd
            cases hres : t.resolveCols cols <;>
              simp [Table.create_index, Table._check_dropped, hd, hn, hl,
                    hres] at h <;>
              rw [← h.2] <;> simp [hd]
  · intro t c t2 h
    by_cases hp : t.primary_key = [] <;>
      simp [Table.add_primary_key, hp] at h <;> rw [← h]

/-- C1 witness for the amended theorem: the dropped fixture handle satisfies
the hypotheses and `create_column` on it fails with the dropped error. -/
theorem C1_dropped_lifecycle_witness :
    exDropped._is_dropped = true ∧
    Table.create_column exDropped "created_at" () =
      (Except.error PyErr.datasetException, []) :=
  ⟨rfl, C1_dropped_lifecycle.1 exDropped "created_at" () rfl⟩

/-- C2: evaluating the code at the failing input.  On the live fixture
handle, `create_column` for a fresh column and `drop_column` for an
existing column both raise AttributeError (the `op` property reads
`self.engine`, which `__init__` never sets) before issuing any DDL or
refreshing the cache — so the refresh the claim requires never happens. -/
theorem C2_refresh_never_runs :
    Table.create_column exTable "created_at" () =
      (Except.error PyErr.attributeError, [])
  ∧ Table.drop_column exTable "name" =
      (Except.error PyErr.attributeError, []) := by
  decide

/-- C3: evaluating the code at the failing input.  `create_index` with a
column list and no explicit name raises TypeError at
`len(columns > 1)` — the list-versus-int comparison yields a bool and
`len` of a bool fails — so two calls with the same column list never
return a descriptor and never issue DDL. -/
theorem C3_no_name_typeerror :
    Table.create_index exTable ["a", "b"] none =
      (Except.error PyErr.typeError, []) := by
  decide

/-- C4: evaluating the code at the failing input.  The single-column default
name `customer_id_idx` is never derived: the call raises TypeError at
`len(columns > 1)` before the `elif` for the one-column case (which has
the same defect, `len(columns == 1)`) can run. -/
theorem C4_derivation_unreachable :
    Table.create_index exTable ["customer_id"] none =
      (Except.error PyErr.typeError, []) := by
  decide

/-- C5: on a live handle with an explicit nonempty name not yet in the
cache, any failure inside the creation step of `create_index` is swallowed:
the call returns `ok` (never propagates an error), caches the `None`
failure sentinel under the given name, and returns that sentinel. -/
theorem C5_failure_swallowed (t : Table) (cols : List String) (n : String)
    (hd : t._is_dropped = false) (hn : ¬ n = "")
    (hl : t.indexes.lookup n = none) :
    t.create_index cols (some n) =
      (Except.ok (none, { t with indexes := t.indexes ++ [(n, none)] }), []) :=
  create_index_fresh t cols n hd hn hl

/-- C5 witness: the fixture handle with name `myidx` satisfies the
hypotheses, and the call returns the cached sentinel without raising. -/
theorem C5_failure_swallowed_witness :
    exTable._is_dropped = false ∧ ¬ "myidx" = "" ∧
    exTable.indexes.lookup "myidx" = none ∧
    Table.create_index exTable ["id", "name"] (some "myidx") =
      (Except.ok (none,
         { exTable with indexes := exTable.indexes ++ [("myidx", none)] }),
       []) :=
  ⟨rfl, by decide, rfl,
   C5_failure_swallowed exTable ["id", "name"] "myidx" rfl (by decide) rfl⟩

/-- C6: evaluating the code at the failing input.  `create_column` with an
existing column (modulo normalization) is a no-op, but for a genuinely new
column it raises AttributeError from the `op` property (`self.engine` is
never set; the connection lives in `self.db`), so the claimed single
add-column DDL is never issued. -/
theorem C6_create_column_never_adds :
    Table.create_column exTable "ID" () = (Except.ok exTable, [])
  ∧ Table.create_column exTable "phone" () =
      (Except.error PyErr.attributeError, []) := by
  decide

/-- C7 counterexample: on the fixture table with no primary key,
`add_primary_key("id")` issues the ALTER TABLE statement but returns the
handle unchanged, so the cached `primary_key` still reads `[]`, not
`["id"]` — refuting the claimed refresh. -/
theorem C7_counterexample :
    Table.add_primary_key exTable "id" =
      (Except.ok exTable,
       [Eff.alterAddPrimaryKey (some "public") (some "things") "id"])
  ∧ Table.primary_key exTable ≠ ["id"] := by
  decide

/-- C7 (amended): `add_primary_key` is a no-op issuing no DDL when the
cached primary key is non-empty; otherwise it issues exactly one
ALTER TABLE ... ADD PRIMARY KEY statement; in both cases the handle — and
with it the cached `primary_key` — is left unchanged (no refresh). -/
theorem C7_add_primary_key_no_refresh (t : Table) (c : String) :
    (t.primary_key ≠ [] → t.add_primary_key c = (Except.ok t, []))
  ∧ (t.primary_key = [] →
       t.add_primary_key c =
         (Except.ok t, [Eff.alterAddPrimaryKey t.schema t.name c])) := by
  constructor <;> intro hp <;> simp [Table.add_primary_key, hp]

/-- C7 witness for the amended theorem: the fixture table has an empty
primary key and the call issues exactly the one ALTER TABLE statement. -/
theorem C7_add_primary_key_no_refresh_witness :
    Table.primary_key exTable = [] ∧
    Table.add_primary_key exTable "id" =
      (Except.ok exTable,
       [Eff.alterAddPrimaryKey exTable.schema exTable.name "id"]) :=
  ⟨rfl, (C7_add_primary_key_no_refresh exTable "id").2 rfl⟩

/-- C8: `parse_table_name` maps a one-dot qualified name `s.t` to
`(some s, t)` and a bare name to `(none, t)`, and name validation fails
with ValueError for an absent or whitespace-only name with no catalog
query issued (the empty effect trace). -/
theorem C8_parse_and_validate :
    (∀ (db : Database) (s t : List Char), '.' ∉ s → '.' ∉ t →
       db.parse_table_name (String.mk (s ++ '.' :: t)) =
         Except.ok (some (String.mk s), String.mk t))
  ∧ (∀ (db : Database) (t : List Char), '.' ∉ t →
       db.parse_table_name (String.mk t) = Except.ok (none, String.mk t))
  ∧ (∀ (db : Database) (cat : Catalog),
       db.load_table cat none = (Except.error PyErr.valueError, []))
  ∧ (∀ (db : Database) (cat : Catalog) (t : String),
       (∀ c ∈ t.data, c.isWhitespace) →
       db.load_table cat (some t) = (Except.error PyErr.valueError, [])) := by
  refine ⟨?_, ?_, ?_, ?_⟩
  · intro db s t hs ht
    have hm : '.' ∈ s ++ '.' :: t := by simp
    simp only [Database.parse_table_name, String.mk]
    rw [if_pos hm, splitDot_append s t hs, splitDot_no_dot t ht]
  · intro db t ht
    have hm : ¬ '.' ∈ t := ht
    simp only [Database.parse_table_name, String.mk]
    rw [if_neg hm]
  · intro db cat
    rfl
  · intro db cat t h
    simp [Database.load_table, Database._valid_table_name,
          pyStrip_all_ws t.data h]

/-- C8 witness: the concrete qualified name `s.t` parses to
`(some "s", "t")`. -/
theorem C8_parse_and_validate_witness :
    ('.' ∉ ['s']) ∧ ('.' ∉ ['t']) ∧
    Database.parse_table_name exDb (String.mk (['s'] ++ '.' :: ['t'])) =
      Except.ok (some (String.mk ['s']), String.mk ['t']) :=
  ⟨by decide, by decide,
   C8_parse_and_validate.1 exDb ['s'] ['t'] (by decide) (by decide)⟩

/-- C9: evaluating the code at the failing input.  Resolving a missing
table name raises: `db["nonexistent"]` consults the catalog, misses, and
then `Table(self, "public", None)` autoloads a table named None, which
ends in NoSuchTableError instead of the inert placeholder the claim (and
the source comment) promise. -/
theorem C9_missing_table_raises :
    Database.getitem exDb exCat "nonexistent" =
      (Except.error PyErr.noSuchTableError,
       [Eff.qTablesInSchema "public", Eff.reflect (some "public") none]) := by
  decide

/-- C10: whenever `create_index` on a live handle is given an explicit
nonempty name that is not yet cached and returns at all, the returned
descriptor is the `None` failure sentinel and that sentinel is what the
cache now holds under the name — a successful descriptor is never
produced, because the creation step reads `self.database`, an attribute
the handle does not possess. -/
theorem C10_sentinel_always (t : Table) (cols : List String) (n : String)
    (r : Option IndexDescr) (t2 : Table) (tr : List Eff)
    (hd : t._is_dropped = false) (hn : ¬ n = "")
    (hl : t.indexes.lookup n = none)
    (h : t.create_index cols (some n) = (Except.ok (r, t2), tr)) :
    r = none ∧ t2.indexes.lookup n = some none := by
  rw [create_index_fresh t cols n hd hn hl] at h
  simp only [Prod.mk.injEq, Except.ok.injEq] at h
  obtain ⟨⟨hr, ht⟩, _⟩ := h
  refine ⟨hr.symm, ?_⟩
  rw [← ht]
  exact lookup_append_fresh t.indexes n none hl

/-- C10 witness: at the fixture handle and name `myidx`, the hypotheses
hold, the call evaluates to the sentinel outcome, and so the returned
descriptor is `none` and the cache holds `none` under `myidx`. -/
theorem C10_sentinel_always_witness :
    (none : Option IndexDescr) = none ∧
    ({ exTable with
        indexes := exTable.indexes ++ [("myidx", none)] } : Table).indexes.lookup
      "myidx" = some none :=
  C10_sentinel_always exTable ["id", "name"] "myidx" none
    { exTable with indexes := exTable.indexes ++ [("myidx", none)] } []
    rfl (by decide) rfl rfl

end Pgdb
